import Mathlib

/-!
Shallow embedding of the service-worker caching engine in
`public/sw.js` of the GGStoreCalatogs repository, together with
theorems settling the spec's claims about it.

Modelling conventions:
* A JavaScript `URL` object is modelled by its protocol, origin,
  pathname and the list of query-parameter names (`searchParams.has`
  is list membership).
* The three API regexes `/\/api\/products/` etc. are unanchored, so
  `pattern.test(pathname)` is substring containment.
* A named cache store is an association list from URL to response
  (the Cache API keys entries by request URL).  `caches.match` with no
  store name searches every store in creation order; in this worker the
  static store (created during install) precedes the dynamic store
  (created on the first dynamic write), and the third recognised name
  `ggcasecatalogs-v1` is never opened or written.
* The network is a function from request to `Option Response`;
  `none` models a rejected `fetch`.
* Promise chains are modelled by explicit results: each handler result
  records whether the promise handed to `waitUntil` resolved and which
  side effects ran.  A `.catch` that merely logs makes the chain
  resolve.
-/

namespace SW

structure Url where
  protocol : String
  origin : String
  pathname : String
  searchParams : List String
deriving DecidableEq

structure Request where
  url : Url
  method : String
  destination : String
deriving DecidableEq

/-- A captured response snapshot: status, the explicitly set
Content-Type header (none when the code sets no header), body. -/
structure Response where
  status : Nat
  contentType : Option String
  body : String
deriving DecidableEq

/-- `Response.ok` of the Fetch API: status in the range 200..299. -/
def Response.ok (r : Response) : Bool :=
  decide (200 ≤ r.status) && decide (r.status < 300)

/-- Bool test that `pat` is a prefix of the second list. -/
def prefixOfCharList : List Char → List Char → Bool
  | [], _ => true
  | _ :: _, [] => false
  | a :: as, b :: bs => a == b && prefixOfCharList as bs

/-- Bool test that `pat` occurs as a contiguous sublist. -/
def subCharList (pat : List Char) : List Char → Bool
  | [] => pat.isEmpty
  | b :: bs => prefixOfCharList pat (b :: bs) || subCharList pat bs

/-- `containsSubstr s pat` : `pat` occurs inside `s` (models an
unanchored `RegExp.test` on a literal pattern). -/
def containsSubstr (s pat : String) : Bool :=
  subCharList pat.data s.data

/-- `startsWith s pre` models `s.startsWith(pre)`. -/
def startsWith (s pre : String) : Bool :=
  prefixOfCharList pre.data s.data

def CACHE_NAME : String := "ggcasecatalogs-v1"

def STATIC_CACHE : String := "static-v1"

def DYNAMIC_CACHE : String := "dynamic-v1"

/-- Assets to cache immediately (sw.js lines 15-19). -/
def STATIC_ASSETS : List String := ["/", "/manifest.json", "/favicon.ico"]

/-- API endpoints to cache (sw.js lines 22-26); the regexes are
unanchored literal paths. -/
def API_CACHE_PATTERNS : List String :=
  ["/api/products", "/api/brands", "/api/categories"]

/-- Helper of sw.js lines 118-120. -/
def isApiRequest (u : Url) : Bool :=
  API_CACHE_PATTERNS.any (fun p => containsSubstr u.pathname p)

/-- Helper of sw.js lines 123-143. -/
def isCacheableRequest (r : Request) : Bool :=
  if !(startsWith r.url.protocol "http") then false
  else if r.url.searchParams.contains "_t"
      || r.url.searchParams.contains "timestamp"
      || r.url.searchParams.contains "nocache" then false
  else if r.method != "GET" then false
  else true

/-- The URL carries one of the no-cache query markers. -/
def hasNoCacheMarker (u : Url) : Bool :=
  u.searchParams.contains "_t"
    || u.searchParams.contains "timestamp"
    || u.searchParams.contains "nocache"

inductive Verdict where
  | skip
  | cacheFirst
  | networkFirst
deriving DecidableEq

/-- The fetch-event listener's dispatch (sw.js lines 78-115): which
strategy, if any, `event.respondWith` is called with.  Falling through
without `respondWith` is `skip`. -/
def classify (selfOrigin : String) (r : Request) : Verdict :=
  if !(startsWith r.url.protocol "http") then .skip
  else if r.url.origin != selfOrigin && !(isApiRequest r.url) then .skip
  else if r.method == "GET" then
    if r.destination == "script" || r.destination == "style"
        || r.destination == "image" then .cacheFirst
    else if API_CACHE_PATTERNS.any
        (fun p => containsSubstr r.url.pathname p) then .networkFirst
    else if r.destination == "document" then .networkFirst
    else if r.url.origin == selfOrigin then .networkFirst
    else .skip
  else .skip

/-- Modelled from the spec: the classifier exactly as the claim states
it — skip when the scheme is not HTTP/HTTPS, skip foreign-origin
non-API requests, skip non-GET methods, then cache-first for
script/style/image destinations and network-first for every other
eligible GET. -/
def classifySpecLiteral (selfOrigin : String) (r : Request) : Verdict :=
  if !(r.url.protocol == "http:" || r.url.protocol == "https:") then .skip
  else if r.url.origin != selfOrigin && !(isApiRequest r.url) then .skip
  else if r.method == "GET" then
    if r.destination == "script" || r.destination == "style"
        || r.destination == "image" then .cacheFirst
    else .networkFirst
  else .skip

/-- The classifier as the claim reads after amendment: identical to
`classifySpecLiteral` except that the scheme gate is the code's prefix
test — any protocol beginning with "http" passes. -/
def classifySpecAmended (selfOrigin : String) (r : Request) : Verdict :=
  if !(startsWith r.url.protocol "http") then .skip
  else if r.url.origin != selfOrigin && !(isApiRequest r.url) then .skip
  else if r.method == "GET" then
    if r.destination == "script" || r.destination == "style"
        || r.destination == "image" then .cacheFirst
    else .networkFirst
  else .skip

/-- A named cache store: an association list keyed by URL. -/
abbrev Store := List (Url × Response)

/-- `cache.match` against a single store. -/
def lookupStore (c : Store) (u : Url) : Option Response :=
  match c.find? (fun e => e.1 == u) with
  | some e => some e.2
  | none => none

/-- `cache.put`: atomic per-key replacement. -/
def putStore (c : Store) (u : Url) (resp : Response) : Store :=
  (u, resp) :: c.filter (fun e => !(e.1 == u))

/-- The stores this worker ever writes: `static-v1` and `dynamic-v1`
(`ggcasecatalogs-v1` is named but never opened). -/
structure CacheState where
  staticStore : Store
  dynamicStore : Store
deriving DecidableEq

/-- `caches.match(request)` with no store name: searches every named
store in creation order, static store first. -/
def cachesMatch (st : CacheState) (u : Url) : Option Response :=
  match lookupStore st.staticStore u with
  | some resp => some resp
  | none => lookupStore st.dynamicStore u

/-- `new Response('Offline', { status: 503 })` — no explicit header. -/
def offlineResponse : Response := ⟨503, none, "Offline"⟩

/-- The template literal of sw.js lines 210-237 (braces written as
\x7b/\x7d and the apostrophe as \x27). -/
def offlineHtmlBody : String :=
  "\n        <!DOCTYPE html>\n        <html>\n        <head>\n          <title>Offline - GG Case Catalogs</title>\n          <style>\n            body \x7b font-family: Arial, sans-serif; text-align: center; padding: 2rem; \x7d\n            .offline-message \x7b max-width: 400px; margin: 0 auto; \x7d\n            .retry-button \x7b \n              padding: 0.5rem 1rem; \n              background: #3498db; \n              color: white; \n              border: none; \n              border-radius: 4px; \n              cursor: pointer; \n              margin-top: 1rem;\n            \x7d\n          </style>\n        </head>\n        <body>\n          <div class=\"offline-message\">\n            <h1>You\x27re Offline</h1>\n            <p>Please check your internet connection and try again.</p>\n            <button class=\"retry-button\" onclick=\"location.reload()\">Retry</button>\n          </div>\n        </body>\n        </html>\n      "

/-- The synthetic offline page: status defaults to 200, with only a
Content-Type header set. -/
def offlineHtmlResponse : Response := ⟨200, some "text/html", offlineHtmlBody⟩

/-- What one strategy invocation produced: the response handed to the
caller, the cache state afterwards, and how many network fetches were
issued. -/
structure HandleResult where
  response : Response
  state : CacheState
  fetches : Nat
deriving DecidableEq

/-- The network: `none` models a rejected `fetch(request)`. -/
abbrev Network := Request → Option Response

/-- Cache-first strategy (sw.js lines 146-180).  The inner try/catch
around `cache.put` swallows write failures, so a write is modelled as
always succeeding; only a `fetch` rejection reaches the outer catch. -/
def cacheFirst (net : Network) (st : CacheState) (r : Request) : HandleResult :=
  match cachesMatch st r.url with
  | some cached => ⟨cached, st, 0⟩
  | none =>
    match net r with
    | some networkResponse =>
      if networkResponse.ok && isCacheableRequest r then
        ⟨networkResponse,
          ⟨putStore st.staticStore r.url networkResponse, st.dynamicStore⟩, 1⟩
      else
        ⟨networkResponse, st, 1⟩
    | none =>
      match cachesMatch st r.url with
      | some cached => ⟨cached, st, 1⟩
      | none => ⟨offlineResponse, st, 1⟩

/-- Network-first strategy (sw.js lines 183-244). -/
def networkFirst (net : Network) (st : CacheState) (r : Request) : HandleResult :=
  match net r with
  | some networkResponse =>
    if networkResponse.ok && isCacheableRequest r then
      ⟨networkResponse,
        ⟨st.staticStore, putStore st.dynamicStore r.url networkResponse⟩, 1⟩
    else
      ⟨networkResponse, st, 1⟩
  | none =>
    match cachesMatch st r.url with
    | some cached => ⟨cached, st, 1⟩
    | none =>
      if r.destination == "document" then ⟨offlineHtmlResponse, st, 1⟩
      else ⟨offlineResponse, st, 1⟩

/-- The network keyed by URL, as seen by `cache.addAll`. -/
abbrev UrlNetwork := Url → Option Response

/-- The manifest URLs resolved against the worker's own origin. -/
def staticAssetUrls (selfOrigin : String) : List Url :=
  STATIC_ASSETS.map (fun p => ⟨"https:", selfOrigin, p, []⟩)

/-- `cache.addAll(urls)`: fetch every URL and store the responses;
reject (give `none`) as soon as any fetch fails. -/
def addAllUrls (net : UrlNetwork) (c : Store) : List Url → Option Store
  | [] => some c
  | u :: rest =>
    match net u with
    | some resp => addAllUrls net (putStore c u resp) rest
    | none => none

/-- Outcome of the install event: the state afterwards, whether the
promise handed to `event.waitUntil` resolved, and whether
`self.skipWaiting()` ran. -/
structure InstallResult where
  state : CacheState
  resolved : Bool
  skipWaitingCalled : Bool
deriving DecidableEq

/-- Install listener (sw.js lines 29-45): open the static store, add
all manifest assets, then `skipWaiting`; the final
`.catch(error => console.error(...))` absorbs any rejection, so the
chain given to `waitUntil` always resolves. -/
def installHandler (net : UrlNetwork) (selfOrigin : String) (st : CacheState) :
    InstallResult :=
  match addAllUrls net st.staticStore (staticAssetUrls selfOrigin) with
  | some c => ⟨⟨c, st.dynamicStore⟩, true, true⟩
  | none => ⟨st, true, false⟩

/-- Outcome of the activate event: which stores were deleted, whether
`self.clients.claim()` ran, and whether the promise handed to
`event.waitUntil` resolved. -/
structure ActivateResult where
  deleted : List String
  claimCalled : Bool
  resolved : Bool
deriving DecidableEq

/-- The filter of sw.js lines 56-60: keep only stale names. -/
def staleCacheNames (names : List String) : List String :=
  names.filter (fun n =>
    !(n == STATIC_CACHE) && !(n == DYNAMIC_CACHE) && !(n == CACHE_NAME))

/-- The currently recognised live store names. -/
def liveCacheNames : List String := [STATIC_CACHE, DYNAMIC_CACHE, CACHE_NAME]

/-- Activate listener (sw.js lines 48-75).  `keys = none` models a
rejected `caches.keys()`; `deleteOk n = false` models a rejected
`caches.delete(n)`.  All stale deletions are started by `Promise.all`,
so every deletion that succeeds takes effect even when another rejects;
on any rejection the `.then` running `clients.claim()` is skipped and
the final `.catch` logs and resolves. -/
def activateHandler (keys : Option (List String)) (deleteOk : String → Bool) :
    ActivateResult :=
  match keys with
  | none => ⟨[], false, true⟩
  | some names =>
    if (staleCacheNames names).all deleteOk then
      ⟨(staleCacheNames names).filter deleteOk, true, true⟩
    else
      ⟨(staleCacheNames names).filter deleteOk, false, true⟩

/-! Concrete inputs used by witnesses and counterexamples. -/

def exOrigin : String := "https://app.example"

def exScriptUrl : Url := ⟨"https:", exOrigin, "/app.js", []⟩

def exScriptReq : Request := ⟨exScriptUrl, "GET", "script"⟩

def exScriptResp : Response := ⟨200, some "text/javascript", "console.log(1)"⟩

def exStaticState : CacheState := ⟨[(exScriptUrl, exScriptResp)], []⟩

def exApiUrl : Url := ⟨"https:", exOrigin, "/api/products", []⟩

def exApiReq : Request := ⟨exApiUrl, "GET", ""⟩

def exStaticCopy : Response := ⟨200, none, "static copy"⟩

def exDynamicCopy : Response := ⟨200, none, "dynamic copy"⟩

/-- Both stores hold an entry for `/api/products`, with different bodies. -/
def exShadowState : CacheState := ⟨[(exApiUrl, exStaticCopy)], [(exApiUrl, exDynamicCopy)]⟩

/-- Only the dynamic store holds an entry for `/api/products`. -/
def exDynOnlyState : CacheState := ⟨[], [(exApiUrl, exDynamicCopy)]⟩

def exDocUrl : Url := ⟨"https:", exOrigin, "/", []⟩

def exDocReq : Request := ⟨exDocUrl, "GET", "document"⟩

def exNoCacheUrl : Url := ⟨"https:", exOrigin, "/api/products", ["nocache"]⟩

def exNoCacheReq : Request := ⟨exNoCacheUrl, "GET", ""⟩

def exFreshResp : Response := ⟨200, some "application/json", "fresh"⟩

/-- A GET script request on the scheme httpx, which is not HTTP/HTTPS
but does begin with "http". -/
def exHttpxReq : Request := ⟨⟨"httpx:", exOrigin, "/app.js", []⟩, "GET", "script"⟩

/-- A network where every fetch rejects. -/
def noNet : Network := fun _ => none

/-- A network answering only the no-cache-marked request. -/
def exNoCacheNet : Network := fun r => if r == exNoCacheReq then some exFreshResp else none

/-- A URL-keyed network where every fetch rejects. -/
def noUrlNet : UrlNetwork := fun _ => none

/-- Every `caches.delete` rejects. -/
def noDeleteOk : String → Bool := fun _ => false

/-- Every `caches.delete` succeeds. -/
def allDeleteOk : String → Bool := fun _ => true

/-! Theorems. -/

/-- C1 counterexample: a same-origin GET script request whose scheme is
httpx — not HTTP/HTTPS — must be Skipped per the claim, but the code's
prefix test lets it through and classifies it CacheFirst. -/
theorem c1_counterexample :
    classifySpecLiteral exOrigin exHttpxReq = Verdict.skip
    ∧ classify exOrigin exHttpxReq = Verdict.cacheFirst
    ∧ classify exOrigin exHttpxReq ≠ classifySpecLiteral exOrigin exHttpxReq := by
  decide

/-- C1 amended: the fetch-event dispatch agrees everywhere with the
claimed classifier once the scheme gate reads "protocol starts with
http": Skip for schemes not beginning with http, Skip for cross-origin
requests matching no API pattern, Skip for non-GET methods, CacheFirst
for script/style/image destinations, NetworkFirst for every other
eligible GET. -/
theorem c1_classifier_matches_spec (selfOrigin : String) (r : Request) :
    classify selfOrigin r = classifySpecAmended selfOrigin r := by
  unfold classify classifySpecAmended
  cases hp : startsWith r.url.protocol "http" <;>
    cases ho : r.url.origin == selfOrigin <;>
      cases ha : isApiRequest r.url <;>
        simp only [isApiRequest] at ha <;>
          simp [hp, ho, ha, bne]

/-- A no-cache query marker makes the request ineligible for writing. -/
theorem isCacheable_eq_false_of_marker (r : Request)
    (h : hasNoCacheMarker r.url = true) : isCacheableRequest r = false := by
  unfold isCacheableRequest
  unfold hasNoCacheMarker at h
  rw [h]
  simp

/-- C2: a request with an entry in the static store is answered by
cache-first with exactly that stored response, with the state unchanged
and zero network fetches. -/
theorem c2_cache_first_hit (net : Network) (st : CacheState) (r : Request)
    (resp : Response) (h : lookupStore st.staticStore r.url = some resp) :
    cacheFirst net st r = ⟨resp, st, 0⟩ := by
  unfold cacheFirst cachesMatch
  rw [h]

/-- C2 witness: a concrete static-store hit. -/
theorem c2_cache_first_hit_witness :
    cacheFirst noNet exStaticState exScriptReq = ⟨exScriptResp, exStaticState, 0⟩ :=
  c2_cache_first_hit noNet exStaticState exScriptReq exScriptResp (by decide)

/-- C3 counterexample: the fallback lookup is `caches.match` over all
stores with the static store first, so when both stores hold an entry
for the request, network-first does not return the dynamic-store entry. -/
theorem c3_counterexample :
    lookupStore exShadowState.dynamicStore exApiReq.url = some exDynamicCopy
    ∧ noNet exApiReq = none
    ∧ (networkFirst noNet exShadowState exApiReq).response ≠ exDynamicCopy := by
  decide

/-- C3 amended: on network failure, network-first returns the
previously stored dynamic entry provided the static store has no entry
for the same URL (otherwise the static entry is returned, since
`caches.match` searches stores in creation order). -/
theorem c3_network_first_fallback (net : Network) (st : CacheState)
    (r : Request) (resp : Response)
    (hs : lookupStore st.staticStore r.url = none)
    (hd : lookupStore st.dynamicStore r.url = some resp)
    (hn : net r = none) :
    (networkFirst net st r).response = resp := by
  unfold networkFirst cachesMatch
  rw [hn, hs, hd]

/-- C3 witness: a concrete dynamic-store fallback. -/
theorem c3_network_first_fallback_witness :
    (networkFirst noNet exDynOnlyState exApiReq).response = exDynamicCopy :=
  c3_network_first_fallback noNet exDynOnlyState exApiReq exDynamicCopy
    (by decide) (by decide) rfl

set_option maxRecDepth 10000

/-- C6: for a document-destination request with no cached entry and a
failing fetch, network-first returns the synthetic offline page:
status 200, Content-Type text/html, body containing the literal text
"You're Offline". -/
theorem c6_offline_document_page (net : Network) (st : CacheState) (r : Request)
    (hc : cachesMatch st r.url = none) (hn : net r = none)
    (hd : r.destination = "document") :
    (networkFirst net st r).response.status = 200
    ∧ (networkFirst net st r).response.contentType = some "text/html"
    ∧ containsSubstr (networkFirst net st r).response.body "You\x27re Offline" = true := by
  unfold networkFirst
  rw [hn, hc, hd]
  refine ⟨rfl, rfl, ?_⟩
  show containsSubstr offlineHtmlBody "You\x27re Offline" = true
  decide

/-- C6 witness: a concrete offline document navigation. -/
theorem c6_offline_document_page_witness :
    (networkFirst noNet (⟨[], []⟩ : CacheState) exDocReq).response.status = 200
    ∧ (networkFirst noNet (⟨[], []⟩ : CacheState) exDocReq).response.contentType
      = some "text/html"
    ∧ containsSubstr (networkFirst noNet (⟨[], []⟩ : CacheState) exDocReq).response.body
      "You\x27re Offline" = true :=
  c6_offline_document_page noNet ⟨[], []⟩ exDocReq rfl rfl rfl

/-- C7: for a non-document request with no cached entry and a failing
fetch, both strategies return the same synthetic response with status
503 and body "Offline". -/
theorem c7_offline_non_document (net : Network) (st : CacheState) (r : Request)
    (hc : cachesMatch st r.url = none) (hn : net r = none)
    (hd : r.destination ≠ "document") :
    (cacheFirst net st r).response = offlineResponse
    ∧ (networkFirst net st r).response = offlineResponse
    ∧ offlineResponse.status = 503 ∧ offlineResponse.body = "Offline" := by
  have hb : (r.destination == "document") = false := by
    simp [hd]
  unfold cacheFirst networkFirst
  simp [hn, hc, hb, offlineResponse]

/-- C7 witness: a concrete offline non-document request. -/
theorem c7_offline_non_document_witness :
    (cacheFirst noNet (⟨[], []⟩ : CacheState) exApiReq).response = offlineResponse
    ∧ (networkFirst noNet (⟨[], []⟩ : CacheState) exApiReq).response = offlineResponse
    ∧ offlineResponse.status = 503 ∧ offlineResponse.body = "Offline" :=
  c7_offline_non_document noNet ⟨[], []⟩ exApiReq rfl rfl (by decide)

/-- C8: when the URL carries a no-cache marker, neither strategy
modifies any store, while a successful network response is still the
one handed to the caller (for cache-first this concerns the cache-miss
path, the only one that fetches). -/
theorem c8_marker_never_persisted (net : Network) (st : CacheState) (r : Request)
    (hm : hasNoCacheMarker r.url = true) :
    (cacheFirst net st r).state = st
    ∧ (networkFirst net st r).state = st
    ∧ (∀ resp, cachesMatch st r.url = none → net r = some resp →
        (cacheFirst net st r).response = resp)
    ∧ (∀ resp, net r = some resp → (networkFirst net st r).response = resp) := by
  have hw : isCacheableRequest r = false := isCacheable_eq_false_of_marker r hm
  refine ⟨?_, ?_, ?_, ?_⟩
  · unfold cacheFirst
    cases h1 : cachesMatch st r.url <;> cases h2 : net r <;> simp [h1, h2, hw]
  · unfold networkFirst
    cases h1 : cachesMatch st r.url <;> cases h2 : net r <;>
      simp [h1, h2, hw, apply_ite HandleResult.state]
  · intro resp h1 h2
    unfold cacheFirst
    simp [h1, h2, hw]
  · intro resp h2
    unfold networkFirst
    simp [h2, hw]

/-- C8 witness: a concrete `nocache`-marked request answered by the
network under both strategies, leaving the stores untouched. -/
theorem c8_marker_never_persisted_witness :
    (cacheFirst exNoCacheNet exShadowState exNoCacheReq).state = exShadowState
    ∧ (networkFirst exNoCacheNet exShadowState exNoCacheReq).state = exShadowState
    ∧ (networkFirst exNoCacheNet exShadowState exNoCacheReq).response = exFreshResp := by
  have h := c8_marker_never_persisted exNoCacheNet exShadowState exNoCacheReq (by decide)
  exact ⟨h.1, h.2.1, h.2.2.2 exFreshResp (by decide)⟩

/-- C10: both strategies look requests up with `caches.match` across
every named store: cache-first serves an entry held only by the dynamic
store without fetching, and the network-first offline fallback can
serve an entry held by the static store. -/
theorem c10_match_spans_all_stores (net : Network) (st : CacheState)
    (r : Request) (resp : Response) :
    (lookupStore st.staticStore r.url = none →
      lookupStore st.dynamicStore r.url = some resp →
      cacheFirst net st r = ⟨resp, st, 0⟩)
    ∧ (net r = none → lookupStore st.staticStore r.url = some resp →
      (networkFirst net st r).response = resp) := by
  constructor
  · intro hs hd
    unfold cacheFirst cachesMatch
    rw [hs, hd]
  · intro hn hs
    unfold networkFirst cachesMatch
    rw [hn, hs]

/-- C10 witness: a dynamic-only entry served by cache-first with no
fetch, and a static entry served by the network-first fallback. -/
theorem c10_match_spans_all_stores_witness :
    cacheFirst noNet exDynOnlyState exApiReq = ⟨exDynamicCopy, exDynOnlyState, 0⟩
    ∧ (networkFirst noNet exStaticState exScriptReq).response = exScriptResp :=
  ⟨(c10_match_spans_all_stores noNet exDynOnlyState exApiReq exDynamicCopy).1
      (by decide) (by decide),
    (c10_match_spans_all_stores noNet exStaticState exScriptReq exScriptResp).2
      rfl (by decide)⟩

/-- `cache.addAll` rejects whenever some listed URL fails to fetch. -/
theorem addAllUrls_eq_none (net : UrlNetwork) (u : Url) (hn : net u = none) :
    ∀ (urls : List Url), u ∈ urls → ∀ c, addAllUrls net c urls = none := by
  intro urls
  induction urls with
  | nil => intro h; cases h
  | cons v rest ih =>
    intro hu c
    unfold addAllUrls
    cases hv : net v with
    | none => simp
    | some resp =>
      rcases List.mem_cons.mp hu with h1 | h2
      · subst h1
        rw [hn] at hv
        cases hv
      · exact ih h2 _

/-- C4 counterexample: every manifest fetch fails, yet the promise the
install handler hands to `waitUntil` resolves — the installation is
reported complete, not aborted. -/
theorem c4_counterexample :
    (staticAssetUrls exOrigin).all (fun u => (noUrlNet u).isNone) = true
    ∧ (installHandler noUrlNet exOrigin ⟨[], []⟩).resolved = true := by
  decide

/-- C4 amended: when any manifest fetch fails, the install handler's
final catch absorbs the rejection: the promise handed to the host
resolves (installation is reported complete rather than aborted),
`skipWaiting` is not invoked, and the stores are left unchanged. -/
theorem c4_install_failure_swallowed (net : UrlNetwork) (selfOrigin : String)
    (st : CacheState) (u : Url) (hu : u ∈ staticAssetUrls selfOrigin)
    (hn : net u = none) :
    installHandler net selfOrigin st = ⟨st, true, false⟩ := by
  unfold installHandler
  rw [addAllUrls_eq_none net u hn _ hu]

/-- C4 witness: a concrete failing install. -/
theorem c4_install_failure_swallowed_witness :
    installHandler noUrlNet exOrigin ⟨[], []⟩ = ⟨⟨[], []⟩, true, false⟩ :=
  c4_install_failure_swallowed noUrlNet exOrigin ⟨[], []⟩
    ⟨"https:", exOrigin, "/", []⟩ (by decide) rfl

/-- C5 counterexample: deleting the lone stale store fails; the error
is only logged and the activation promise resolves, but
`clients.claim()` is never invoked — the claim step does not occur. -/
theorem c5_counterexample :
    staleCacheNames ["old-v0"] = ["old-v0"]
    ∧ noDeleteOk "old-v0" = false
    ∧ (activateHandler (some ["old-v0"]) noDeleteOk).resolved = true
    ∧ (activateHandler (some ["old-v0"]) noDeleteOk).claimCalled = false := by
  decide

/-- C5 amended: if store enumeration or any stale-store deletion fails
during activation, the failure is only logged and the activation
promise still resolves, but the chain skips to the catch, so
`clients.claim()` does not run. -/
theorem c5_activation_failure_skips_claim (keys : Option (List String))
    (deleteOk : String → Bool)
    (h : keys = none
      ∨ ∃ names, keys = some names ∧ (staleCacheNames names).all deleteOk = false) :
    (activateHandler keys deleteOk).resolved = true
    ∧ (activateHandler keys deleteOk).claimCalled = false := by
  rcases h with h | ⟨names, hk, hf⟩
  · subst h
    exact ⟨rfl, rfl⟩
  · subst hk
    unfold activateHandler
    simp [hf]

/-- C5 witness: a concrete failing deletion during activation. -/
theorem c5_activation_failure_skips_claim_witness :
    (activateHandler (some ["stale-a", "old-v0"]) noDeleteOk).resolved = true
    ∧ (activateHandler (some ["stale-a", "old-v0"]) noDeleteOk).claimCalled = false :=
  c5_activation_failure_skips_claim (some ["stale-a", "old-v0"]) noDeleteOk
    (Or.inr ⟨["stale-a", "old-v0"], rfl, by decide⟩)

/-- C9: activation deletes exactly the stores whose name is outside the
live set static-v1 / dynamic-v1 / ggcasecatalogs-v1; in particular,
given stores static-v1, dynamic-v1 and old-v0, only old-v0 is deleted
and the claim step runs. -/
theorem c9_activation_purges_exactly_stale :
    (∀ names, (activateHandler (some names) allDeleteOk).deleted
      = names.filter (fun n => !(liveCacheNames.contains n)))
    ∧ (activateHandler (some ["static-v1", "dynamic-v1", "old-v0"]) allDeleteOk).deleted
      = ["old-v0"]
    ∧ (activateHandler (some ["static-v1", "dynamic-v1", "old-v0"]) allDeleteOk).claimCalled
      = true := by
  refine ⟨?_, by decide, by decide⟩
  intro names
  have hall : (staleCacheNames names).all allDeleteOk = true := by
    simp [allDeleteOk]
  simp only [activateHandler]
  rw [if_pos hall]
  show (staleCacheNames names).filter allDeleteOk
      = names.filter (fun n => !(liveCacheNames.contains n))
  unfold staleCacheNames
  rw [List.filter_filter]
  apply List.filter_congr
  intro n _
  cases h1 : n == STATIC_CACHE <;> cases h2 : n == DYNAMIC_CACHE <;>
    cases h3 : n == CACHE_NAME <;>
      simp [allDeleteOk, liveCacheNames, List.contains, List.elem, h1, h2, h3]

end SW
